import Mathlib

/-! Freelancer-Hub backend: Time-to-Revenue pipeline, shallow embedding.

This file embeds the core of the repository's Time-to-Revenue pipeline in
Lean 4 and proves / refutes the frozen specification claims about it.

Embedded source files:
* `src/services/invoiceService.ts` — `InvoiceService.generateInvoiceNumber`,
  `InvoiceService.generateFromProject`, `InvoiceService.getInvoiceById`,
  `InvoiceService.updateInvoiceStatus`, `InvoiceService.createManualInvoice`;
* `src/services/timerService.ts` (shipped unnamed) — `TimerService.startTimer`,
  `TimerService.stopTimer`;
* `src/middleware/errorHandler.ts` — `CustomError` (message + HTTP status code).

Modelling conventions:
* JS strings that the code compares or slices (invoice numbers) are modelled
  as lists of UTF-16 code units (`List Nat`); JS `<` on strings is
  code-unit-wise lexicographic order, which `cuLt` implements.
* `Prisma.Decimal` money arithmetic is modelled exactly by `ℚ`.  decimal.js
  keeps 20 significant digits; on the magnitudes the service manipulates the
  operations used (`add`, `mul` by `0.25`, small products) are exact, so `ℚ`
  is a faithful model of every value the claims mention.
* `totalMinutes / 60` is a JS double division fed to the `Decimal`
  constructor; it is modelled as exact rational division.  All concrete
  inputs used below make that division exact in binary floating point
  (`300 / 60 = 5`, `45 / 60 = 0.75`, ...), so no verdict depends on the
  difference.
* Timestamps are milliseconds since the epoch (`Int`), as in JS `Date`.
  `Math.floor((endMs - startMs) / 1000)` equals floor division
  `Int.fdiv (endMs - startMs) 1000` for all realistic magnitudes
  (`|diff| < 2^53`), which is how it is embedded.
* Prisma queries become list filters / lookups over an explicit `Store`;
  a Prisma `$transaction` that throws is modelled by returning
  `Except.error` and leaving the caller's store untouched.
-/

/-! ## JS strings as UTF-16 code units -/

/-- One JS string, as its list of UTF-16 code units. -/
abbrev CU := List Nat

/-- JS `<` on strings: code-unit-wise lexicographic comparison. -/
def cuLt : CU → CU → Bool
  | _, [] => false
  | [], _ :: _ => true
  | a :: as, b :: bs => a < b || (a == b && cuLt as bs)

/-- JS `String.prototype.startsWith`. -/
def cuStartsWith : CU → CU → Bool
  | [], _ => true
  | _ :: _, [] => false
  | p :: ps, s :: ss => p == s && cuStartsWith ps ss

/-- Decimal digits of `n`, as code units, most significant first
(`Number.prototype.toString` for a natural number).  Fuel-structured so that
the kernel can evaluate it; `n + 1` units of fuel always suffice. -/
def natDigitsAux : Nat → Nat → CU
  | 0, _ => []
  | fuel + 1, n =>
    if n < 10 then [48 + n] else natDigitsAux fuel (n / 10) ++ [48 + n % 10]

/-- Code units of the decimal rendering of `n`. -/
def natDigits (n : Nat) : CU := natDigitsAux (n + 1) n

/-- JS `String.prototype.padStart(4, '0')`. -/
def padStart4 (s : CU) : CU := List.replicate (4 - s.length) 48 ++ s

/-- The persisted invoice-number format: `` `${year}-${seq.toString().padStart(4, '0')}` ``. -/
def fmtInvoiceNumber (year seq : Nat) : CU :=
  natDigits year ++ [45] ++ padStart4 (natDigits seq)

/-- JS `parseInt(s, 10)` restricted to what the service feeds it: reads the
maximal leading run of decimal digits; `none` models `NaN`. -/
def parseIntCU (s : CU) : Option Nat :=
  match s with
  | [] => none
  | c :: _ =>
    if 48 ≤ c ∧ c ≤ 57 then
      some ((s.takeWhile fun u => 48 ≤ u && u ≤ 57).foldl
        (fun acc u => 10 * acc + (u - 48)) 0)
    else none

/-- JS `number.split('-')[1]`: the segment between the first and second `'-'`
(code unit 45); `none` models the `undefined` of an out-of-range index. -/
def secondDashField (s : CU) : Option CU :=
  match s.dropWhile fun u => u ≠ 45 with
  | [] => none
  | _ :: rest => some (rest.takeWhile fun u => u ≠ 45)

/-- One comparison step of a descending scan: keep the larger string. -/
def maxStep (acc : Option CU) (x : CU) : Option CU :=
  match acc with
  | none => some x
  | some m => if cuLt m x then some x else some m

/-- Prisma `findFirst` with `orderBy: { number: 'desc' }`: the lexicographically
greatest element of the list, `none` on the empty list. -/
def maxByCu (l : List CU) : Option CU :=
  l.foldl maxStep none

/-! ## `InvoiceService.generateInvoiceNumber`

`invoiceService.ts:32-54`.  Reads all invoices whose number starts with
`` `${currentYear}-` ``, takes the greatest number string, parses the part
after the dash, adds one, and zero-pads to four digits; `1` when no invoice
of the year exists.  `numbers` is the list of persisted invoice numbers and
`year` is `new Date().getFullYear()`. -/

def generateInvoiceNumber (year : Nat) (numbers : List CU) : CU :=
  let yearPrefix : CU := natDigits year ++ [45]
  let candidates := numbers.filter (cuStartsWith yearPrefix)
  match maxByCu candidates with
  | none => yearPrefix ++ padStart4 (natDigits 1)
  | some last =>
    match (secondDashField last).bind parseIntCU with
    | some n => yearPrefix ++ padStart4 (natDigits (n + 1))
    -- `parseInt` on a non-numeric tail yields `NaN`; `(NaN+1).toString()
    -- .padStart(4,'0')` is `"0NaN"` (code units 48, 78, 97, 78).
    | none => yearPrefix ++ [48, 78, 97, 78]

example : generateInvoiceNumber 2025 [] = fmtInvoiceNumber 2025 1 := by decide

example :
    generateInvoiceNumber 2025
      [fmtInvoiceNumber 2025 3, fmtInvoiceNumber 2024 7] =
      fmtInvoiceNumber 2025 4 := by decide

example :
    generateInvoiceNumber 2026 [fmtInvoiceNumber 2025 3] =
      fmtInvoiceNumber 2026 1 := by decide

/-! ## Data model

Entity rows as the services read and write them (Prisma models restricted to
the fields the embedded operations touch).  Money fields are `ℚ` (exact
`Prisma.Decimal`), timestamps are epoch milliseconds (`Int`), `deletedAt`
is the soft-delete marker. -/

structure User where
  id : String
  hourlyRate : Option ℚ
deriving DecidableEq

structure Project where
  id : String
  clientId : String
  ownerId : String
  deletedAt : Option Int
deriving DecidableEq

structure TaskRow where
  id : String
  projectId : String
  title : String
  deletedAt : Option Int
deriving DecidableEq

structure TimeEntry where
  id : String
  userId : String
  taskId : String
  description : String
  startTime : Int
  endTime : Option Int
  duration : Int
  billable : Bool
  approved : Bool
  deletedAt : Option Int
deriving DecidableEq

structure Expense where
  id : String
  projectId : String
  userId : String
  date : Int
  amount : ℚ
  category : String
  description : String
  billable : Bool
  deletedAt : Option Int
deriving DecidableEq

inductive InvoiceStatus
  | DRAFT
  | SENT
  | PAID
  | OVERDUE
deriving DecidableEq

structure Invoice where
  id : String
  clientId : String
  userId : String
  projectId : Option String
  number : CU
  date : Int
  dueDate : Int
  status : InvoiceStatus
  subtotal : ℚ
  tax : ℚ
  total : ℚ
  notes : Option String
  deletedAt : Option Int
deriving DecidableEq

structure InvoiceItem where
  invoiceId : String
  description : String
  quantity : ℚ
  rate : ℚ
  amount : ℚ
deriving DecidableEq

/-- The persistent store the Prisma queries run against. -/
structure Store where
  users : List User
  projects : List Project
  tasks : List TaskRow
  timeEntries : List TimeEntry
  expenses : List Expense
  invoices : List Invoice
  invoiceItems : List InvoiceItem
deriving DecidableEq

/-- The `CustomError` of `src/middleware/errorHandler.ts`: a message plus the
HTTP status code.  The spec's error kinds map onto the codes the services
pass: `NotFoundError` 404, `ConflictError` 409, `InvalidStateError` 400. -/
structure CustomError where
  message : String
  statusCode : Nat
deriving DecidableEq

-- Service calls return either a thrown `CustomError` or a value.
deriving instance DecidableEq for Except

/-! ## `TimerService` (`src/services/timerService.ts`) -/

/-- Embeds `prisma.timeEntry.findFirst({ where: { userId, endTime: null } })`:
the worker's running entry, if any.  (The timer queries have no
`deletedAt` filter in the source.) -/
def findRunningTimer (userId : String) (st : Store) : Option TimeEntry :=
  st.timeEntries.find? fun e => e.userId == userId && e.endTime.isNone

/-- Embeds `TimerService.startTimer` (timerService.ts:10-69).  `now` is
`new Date()` and `newId` the id the store generates for the created row.
The created entry mirrors `timeEntry.create`: running (`endTime` null),
`duration = 0`, `billable = true`; `approved` keeps its schema default
`false`. -/
def startTimer (now : Int) (newId userId taskId : String)
    (description : Option String) (st : Store) :
    Except CustomError (Store × TimeEntry) :=
  match findRunningTimer userId st with
  | some _ => .error ⟨"You already have an active timer running", 409⟩
  | none =>
    let task? := st.tasks.find? fun t =>
      t.id == taskId &&
        st.projects.any fun p => p.id == t.projectId && p.ownerId == userId
    match task? with
    | none => .error ⟨"Task not found or access denied", 404⟩
    | some _ =>
      let e : TimeEntry :=
        { id := newId, userId := userId, taskId := taskId
          description := description.getD ""
          startTime := now, endTime := none, duration := 0
          billable := true, approved := false, deletedAt := none }
      .ok ({ st with timeEntries := st.timeEntries ++ [e] }, e)

/-- Embeds `TimerService.stopTimer` (timerService.ts:71-108).  Sets `endTime = now`
and `duration = Math.floor((endTime - startTime) / 1000)`: floor division of
the millisecond difference, embedded as `Int.fdiv` (equal to the JS value
for all `|diff| < 2^53`).  There is no guard on the sign of the result. -/
def stopTimer (now : Int) (userId : String) (st : Store) :
    Except CustomError (Store × TimeEntry) :=
  match findRunningTimer userId st with
  | none => .error ⟨"No active timer found", 404⟩
  | some e =>
    let e' : TimeEntry :=
      { e with endTime := some now, duration := Int.fdiv (now - e.startTime) 1000 }
    let entries := st.timeEntries.map fun x => if x.id == e.id then e' else x
    .ok ({ st with timeEntries := entries }, e')

/-- The store after a `startTimer` call: unchanged when the call throws. -/
def applyStartTimer (now : Int) (newId userId taskId : String)
    (description : Option String) (st : Store) : Store :=
  match startTimer now newId userId taskId description st with
  | .ok (st', _) => st'
  | .error _ => st

/-- The store after a `stopTimer` call: unchanged when the call throws. -/
def applyStopTimer (now : Int) (userId : String) (st : Store) : Store :=
  match stopTimer now userId st with
  | .ok (st', _) => st'
  | .error _ => st

/-! ## `InvoiceService.generateFromProject` (`invoiceService.ts:56-205`) -/

/-- The validated body of a generate-invoice request. -/
structure GenerateInvoiceData where
  projectId : String
  startDate : Int
  endDate : Int
  dueDate : Option Int
  notes : Option String
deriving DecidableEq

/-- Embeds `tx.project.findFirst({ where: { id, ownerId: userId, deletedAt: null } })`. -/
def findProject (userId projectId : String) (st : Store) : Option Project :=
  st.projects.find? fun p =>
    p.id == projectId && p.ownerId == userId && p.deletedAt.isNone

/-- The included `owner` relation's rate with the service's default:
`project.owner.hourlyRate || new Prisma.Decimal(50)`.  A `null` rate falls
back to `50`; a present `Decimal` is an always-truthy object and is kept.
(Referential integrity makes the owner row always present; an absent row is
given the same default.) -/
def ownerHourlyRate (st : Store) (p : Project) : ℚ :=
  match st.users.find? fun u => u.id == p.ownerId with
  | some u => u.hourlyRate.getD 50
  | none => 50

/-- The task row an entry's `task` relation resolves to. -/
def taskOfEntry (st : Store) (e : TimeEntry) : Option TaskRow :=
  st.tasks.find? fun t => t.id == e.taskId

/-- Embeds the `tx.timeEntry.findMany` of `generateFromProject`: billable, approved,
not soft-deleted entries of the calling user, started inside the window,
whose task belongs to the (non-deleted) target project. -/
def eligibleTimeEntries (userId : String) (d : GenerateInvoiceData)
    (st : Store) : List TimeEntry :=
  st.timeEntries.filter fun e =>
    e.userId == userId && e.billable && e.approved && e.deletedAt.isNone &&
      d.startDate ≤ e.startTime && e.startTime ≤ d.endDate &&
      match taskOfEntry st e with
      | some t => t.projectId == d.projectId && t.deletedAt.isNone
      | none => false

/-- Embeds the `tx.expense.findMany` of `generateFromProject`: billable, not
soft-deleted expenses of the calling user on the project, dated inside the
window. -/
def eligibleExpenses (userId : String) (d : GenerateInvoiceData)
    (st : Store) : List Expense :=
  st.expenses.filter fun x =>
    x.projectId == d.projectId && x.userId == userId && x.billable &&
      x.deletedAt.isNone && d.startDate ≤ x.date && x.date ≤ d.endDate

/-- The `task.title` the entry's include carries (referential integrity
makes the task always present). -/
def entryTaskTitle (st : Store) (e : TimeEntry) : String :=
  ((taskOfEntry st e).map TaskRow.title).getD ""

/-- One step of the `timeEntries.reduce` grouping: add `dur` to the group
keyed by `title`, creating the group at the end on first sight (JS object
insertion order for the non-numeric task-title keys). -/
def addToGroup (acc : List (String × Int)) (title : String) (dur : Int) :
    List (String × Int) :=
  match acc with
  | [] => [(title, dur)]
  | (t, m) :: rest =>
    if t == title then (t, m + dur) :: rest
    else (t, m) :: addToGroup rest title dur

/-- Embeds `timeEntries.reduce(...)` (invoiceService.ts:138-148): total minutes per
task title.  (`entry.duration || 0` is the identity on a non-null integer
duration, `0` included.) -/
def timeEntryGroups (st : Store) (entries : List TimeEntry) :
    List (String × Int) :=
  entries.foldl (fun acc e => addToGroup acc (entryTaskTitle st e) e.duration) []

/-- The per-task line items (invoiceService.ts:150-163):
`hours = totalMinutes / 60`, `amount = hours × rate`, description
`` `Rad na zadatku: ${taskTitle}` ``.  No rounding is applied. -/
def timeItems (invoiceId : String) (rate : ℚ) (groups : List (String × Int)) :
    List InvoiceItem :=
  groups.map fun g =>
    let hours : ℚ := (g.2 : ℚ) / 60
    { invoiceId := invoiceId
      description := "Rad na zadatku: " ++ g.1
      quantity := hours, rate := rate, amount := hours * rate }

/-- The per-expense line items (invoiceService.ts:165-175): quantity 1,
rate and amount the expense amount. -/
def expenseItems (invoiceId : String) (xs : List Expense) : List InvoiceItem :=
  xs.map fun x =>
    { invoiceId := invoiceId
      description := x.category ++ ": " ++ x.description
      quantity := 1, rate := x.amount, amount := x.amount }

/-- Embeds `InvoiceService.generateFromProject`.  Here `now` is the request time (also
giving `date` and the due-date default), `year` is
`new Date().getFullYear()`, `newInvoiceId` the id the store generates.
The transaction's net effect is modelled: the invoice row is created with
zero totals and updated to the computed totals before commit, so only the
final values are observable.  A throw rolls the transaction back, modelled
by `Except.error` with the caller's store untouched. -/
def generateFromProject (now : Int) (year : Nat) (newInvoiceId : String)
    (userId : String) (d : GenerateInvoiceData) (st : Store) :
    Except CustomError (Store × Invoice × List InvoiceItem) :=
  match findProject userId d.projectId st with
  | none => .error ⟨"Project not found or access denied", 404⟩
  | some project =>
    let entries := eligibleTimeEntries userId d st
    let expenses := eligibleExpenses userId d st
    if entries.isEmpty && expenses.isEmpty then
      .error ⟨"No billable time entries or expenses found for the specified period", 400⟩
    else
      let number := generateInvoiceNumber year (st.invoices.map Invoice.number)
      let dueDate := d.dueDate.getD (now + 30 * 24 * 60 * 60 * 1000)
      let rate := ownerHourlyRate st project
      let items :=
        timeItems newInvoiceId rate (timeEntryGroups st entries) ++
          expenseItems newInvoiceId expenses
      let subtotal := items.foldl (fun s i => s + i.amount) 0
      let tax := subtotal * (1 / 4 : ℚ)
      let total := subtotal + tax
      let inv : Invoice :=
        { id := newInvoiceId, clientId := project.clientId, userId := userId
          projectId := some d.projectId, number := number
          date := now, dueDate := dueDate, status := .DRAFT
          subtotal := subtotal, tax := tax, total := total
          notes := d.notes, deletedAt := none }
      .ok ({ st with
              invoices := st.invoices ++ [inv]
              invoiceItems := st.invoiceItems ++ items }, inv, items)

/-- The store after a `generateFromProject` call: unchanged when the
transaction throws. -/
def applyGenerate (now : Int) (year : Nat) (newInvoiceId : String)
    (userId : String) (d : GenerateInvoiceData) (st : Store) : Store :=
  match generateFromProject now year newInvoiceId userId d st with
  | .ok (st', _, _) => st'
  | .error _ => st

/-! ## `InvoiceService.getInvoiceById` / `updateInvoiceStatus`
(`invoiceService.ts:207-326`) -/

/-- Embeds `getInvoiceById`: the non-deleted invoice whose project is owned by the
caller, or which has no project at all (`OR: [{project: {ownerId, deletedAt:
null}}, {project: null}]`). -/
def getInvoiceById (userId invoiceId : String) (st : Store) : Option Invoice :=
  st.invoices.find? fun i =>
    i.id == invoiceId && i.deletedAt.isNone &&
      match i.projectId with
      | none => true
      | some pid =>
        st.projects.any fun p =>
          p.id == pid && p.ownerId == userId && p.deletedAt.isNone

/-- Embeds `InvoiceService.updateInvoiceStatus` (invoiceService.ts:300-326): after
the existence/access check, `prisma.invoice.update({ data: { status } })` —
the requested status is written unconditionally; no transition table is
consulted anywhere in the service or its controller. -/
def updateInvoiceStatus (userId invoiceId : String) (status : InvoiceStatus)
    (st : Store) : Except CustomError (Store × Invoice) :=
  match getInvoiceById userId invoiceId st with
  | none => .error ⟨"Invoice not found or access denied", 404⟩
  | some inv =>
    let invoices := st.invoices.map fun i =>
      if i.id == invoiceId then { i with status := status } else i
    .ok ({ st with invoices := invoices }, { inv with status := status })

/-! ## `InvoiceService.createManualInvoice` (`invoiceService.ts:328-409`) -/

/-- One caller-supplied line item of the manual path. -/
structure ManualItem where
  description : String
  quantity : ℚ
  rate : ℚ
deriving DecidableEq

/-- The manual-invoice payload (the controller's `createInvoiceSchema`
always supplies `subtotal`, `tax` and `total`, but the service accepts them
as optional). -/
structure ManualInvoiceData where
  clientId : String
  projectId : Option String
  number : CU
  dueDate : Int
  notes : Option String
  items : List ManualItem
  status : Option InvoiceStatus
  taxRate : Option ℚ
  discount : Option ℚ
  subtotal : Option ℚ
  taxAmount : Option ℚ
  total : Option ℚ
  issueDate : Option Int
deriving DecidableEq

/-- Embeds `InvoiceService.createManualInvoice`: caller-supplied totals are taken
verbatim; each default mirrors the source
(`subtotal ?? Σ quantity·rate`, `taxAmount ?? (taxRate ? subtotal·taxRate/100
: 0)` — for `taxRate = 0` both branches give `0` — and
`total ?? subtotal + taxAmount − (discount || 0)`).  Item amounts are always
recomputed as `quantity × rate`. -/
def createManualInvoice (now : Int) (newInvoiceId : String) (userId : String)
    (d : ManualInvoiceData) (st : Store) : Store × Invoice × List InvoiceItem :=
  let subtotal := d.subtotal.getD
    (d.items.foldl (fun s i => s + i.quantity * i.rate) 0)
  let taxAmount := d.taxAmount.getD
    (match d.taxRate with
     | some tr => subtotal * (tr / 100)
     | none => 0)
  let total := d.total.getD (subtotal + taxAmount - (d.discount.getD 0))
  let items := d.items.map fun i =>
    ({ invoiceId := newInvoiceId, description := i.description
       quantity := i.quantity, rate := i.rate
       amount := i.quantity * i.rate } : InvoiceItem)
  let inv : Invoice :=
    { id := newInvoiceId, clientId := d.clientId, userId := userId
      projectId := d.projectId, number := d.number
      date := d.issueDate.getD now, dueDate := d.dueDate
      status := d.status.getD .DRAFT
      subtotal := subtotal, tax := taxAmount, total := total
      notes := d.notes, deletedAt := none }
  ({ st with
      invoices := st.invoices ++ [inv]
      invoiceItems := st.invoiceItems ++ items }, inv, items)

/-! ## Arithmetic facts about the number format

These lemmas connect the string-level behaviour of
`generateInvoiceNumber` (lexicographic maximum, `split`, `parseInt`,
`padStart`) with the sequence numbers it encodes, for sequences in the
four-digit range the format covers. -/

theorem natDigitsAux_lt10 (fuel n : Nat) (hn : n < 10) :
    natDigitsAux (fuel + 1) n = [48 + n] := by
  simp [natDigitsAux, hn]

theorem natDigitsAux_ge10 (fuel n : Nat) (hn : 10 ≤ n) :
    natDigitsAux (fuel + 1) n = natDigitsAux fuel (n / 10) ++ [48 + n % 10] := by
  simp [natDigitsAux, Nat.not_lt.mpr hn]

theorem natDigitsAux_fuel (n : Nat) :
    ∀ f1 f2 : Nat, n < f1 → n < f2 → natDigitsAux f1 n = natDigitsAux f2 n := by
  induction n using Nat.strong_induction_on with
  | _ n ih =>
    intro f1 f2 h1 h2
    match f1, f2 with
    | a + 1, b + 1 =>
      by_cases hn : n < 10
      · rw [natDigitsAux_lt10 a n hn, natDigitsAux_lt10 b n hn]
      · rw [natDigitsAux_ge10 a n (by omega), natDigitsAux_ge10 b n (by omega),
          ih (n / 10) (by omega) a b (by omega) (by omega)]

theorem natDigits_one_digit (n : Nat) (h : n < 10) : natDigits n = [48 + n] :=
  natDigitsAux_lt10 n n h

theorem natDigits_def (n : Nat) : natDigits n = natDigitsAux (n + 1) n := rfl

theorem natDigits_two_digits (n : Nat) (h1 : 10 ≤ n) (h2 : n < 100) :
    natDigits n = [48 + n / 10, 48 + n % 10] := by
  rw [natDigits, natDigitsAux_ge10 n n h1,
    natDigitsAux_fuel (n / 10) n (n / 10 + 1) (by omega) (by omega),
    natDigitsAux_lt10 (n / 10) (n / 10) (by omega)]
  rfl

theorem natDigits_three_digits (n : Nat) (h1 : 100 ≤ n) (h2 : n < 1000) :
    natDigits n = [48 + n / 10 / 10, 48 + n / 10 % 10, 48 + n % 10] := by
  rw [natDigits, natDigitsAux_ge10 n n (by omega),
    natDigitsAux_fuel (n / 10) n (n / 10 + 1) (by omega) (by omega),
    ← natDigits_def, natDigits_two_digits (n / 10) (by omega) (by omega)]
  rfl

theorem natDigits_four_digits (n : Nat) (h1 : 1000 ≤ n) (h2 : n < 10000) :
    natDigits n =
      [48 + n / 10 / 10 / 10, 48 + n / 10 / 10 % 10, 48 + n / 10 % 10,
        48 + n % 10] := by
  rw [natDigits, natDigitsAux_ge10 n n (by omega),
    natDigitsAux_fuel (n / 10) n (n / 10 + 1) (by omega) (by omega),
    ← natDigits_def, natDigits_three_digits (n / 10) (by omega) (by omega)]
  rfl

/-- The four code units of `seq.toString().padStart(4, '0')` for a sequence
in the range the format covers. -/
theorem padStart4_natDigits (n : Nat) (h : n ≤ 9999) :
    padStart4 (natDigits n) =
      [48 + n / 1000, 48 + n / 100 % 10, 48 + n / 10 % 10, 48 + n % 10] := by
  by_cases h1 : n < 10
  · rw [natDigits_one_digit n h1]
    simp [padStart4, List.replicate]
    omega
  · by_cases h2 : n < 100
    · rw [natDigits_two_digits n (by omega) h2]
      simp [padStart4, List.replicate]
      omega
    · by_cases h3 : n < 1000
      · rw [natDigits_three_digits n (by omega) h3]
        simp [padStart4, List.replicate]
        omega
      · rw [natDigits_four_digits n (by omega) (by omega)]
        simp [padStart4, List.replicate]
        omega

theorem cuLt_append_same (p x y : CU) : cuLt (p ++ x) (p ++ y) = cuLt x y := by
  induction p with
  | nil => rfl
  | cons a ps ih => simp [cuLt, ih]

/-- On same-year numbers with four-digit sequences, the JS string order is
the numeric order of the sequences. -/
theorem cuLt_fmt_iff (year s t : Nat) (hs : s ≤ 9999) (ht : t ≤ 9999) :
    cuLt (fmtInvoiceNumber year s) (fmtInvoiceNumber year t) = true ↔ s < t := by
  unfold fmtInvoiceNumber
  rw [List.append_assoc, List.append_assoc, cuLt_append_same,
    (rfl : [45] ++ padStart4 (natDigits s) = 45 :: padStart4 (natDigits s)),
    (rfl : [45] ++ padStart4 (natDigits t) = 45 :: padStart4 (natDigits t))]
  rw [padStart4_natDigits s hs, padStart4_natDigits t ht]
  simp [cuLt]
  omega

/-- Same-year four-digit numbers are equal only at equal sequences. -/
theorem fmt_inj (year s t : Nat) (hs : s ≤ 9999) (ht : t ≤ 9999)
    (h : fmtInvoiceNumber year s = fmtInvoiceNumber year t) : s = t := by
  unfold fmtInvoiceNumber at h
  rw [List.append_assoc, List.append_assoc] at h
  have h2 := List.append_cancel_left h
  rw [(rfl : [45] ++ padStart4 (natDigits s) = 45 :: padStart4 (natDigits s)),
    (rfl : [45] ++ padStart4 (natDigits t) = 45 :: padStart4 (natDigits t)),
    padStart4_natDigits s hs, padStart4_natDigits t ht] at h2
  simp at h2
  omega

theorem cuStartsWith_append (p r : CU) : cuStartsWith p (p ++ r) = true := by
  induction p with
  | nil => rfl
  | cons a ps ih => simp [cuStartsWith, ih]

theorem natDigitsAux_mem_range (fuel : Nat) :
    ∀ n u, u ∈ natDigitsAux fuel n → 48 ≤ u ∧ u ≤ 57 := by
  induction fuel with
  | zero => intro n u hu; simp [natDigitsAux] at hu
  | succ f ih =>
    intro n u hu
    by_cases h : n < 10
    · rw [natDigitsAux_lt10 f n h] at hu
      simp at hu
      omega
    · rw [natDigitsAux_ge10 f n (by omega)] at hu
      rcases List.mem_append.mp hu with h1 | h1
      · exact ih (n / 10) u h1
      · simp at h1
        omega

theorem natDigits_mem_range (n u : Nat) (hu : u ∈ natDigits n) :
    48 ≤ u ∧ u ≤ 57 :=
  natDigitsAux_mem_range (n + 1) n u hu

theorem padStart4_mem_range (n u : Nat) (hu : u ∈ padStart4 (natDigits n)) :
    48 ≤ u ∧ u ≤ 57 := by
  rcases List.mem_append.mp hu with h1 | h1
  · rw [List.eq_of_mem_replicate h1]
    omega
  · exact natDigits_mem_range n u h1

theorem dropWhile_append_all {p : Nat → Bool} (a b : CU)
    (h : ∀ u ∈ a, p u = true) :
    (a ++ b).dropWhile p = b.dropWhile p := by
  induction a with
  | nil => rfl
  | cons x xs ih =>
    rw [List.cons_append, List.dropWhile_cons_of_pos (h x (by simp))]
    exact ih fun u hu => h u (by simp [hu])

theorem takeWhile_all {p : Nat → Bool} (a : CU) (h : ∀ u ∈ a, p u = true) :
    a.takeWhile p = a := by
  induction a with
  | nil => rfl
  | cons x xs ih =>
    rw [List.takeWhile_cons_of_pos (h x (by simp)),
      ih fun u hu => h u (by simp [hu])]

/-- Applying `split('-')[1]` to a formatted number is its padded sequence part. -/
theorem secondDashField_fmt (year s : Nat) :
    secondDashField (fmtInvoiceNumber year s) =
      some (padStart4 (natDigits s)) := by
  unfold secondDashField fmtInvoiceNumber
  rw [List.append_assoc]
  simp only [List.cons_append, List.nil_append]
  rw [dropWhile_append_all _ _ fun u hu => by
    have := natDigits_mem_range year u hu
    simp
    omega]
  rw [List.dropWhile_cons_of_neg (by simp)]
  exact congrArg some (takeWhile_all _ fun u hu => by
    have := padStart4_mem_range s u hu
    simp
    omega)

/-- Parsing recovers the sequence from its four-digit padded rendering. -/
theorem parseIntCU_padStart4 (s : Nat) (h : s ≤ 9999) :
    parseIntCU (padStart4 (natDigits s)) = some s := by
  rw [padStart4_natDigits s h]
  simp only [parseIntCU]
  rw [if_pos (by omega)]
  rw [takeWhile_all _ fun u hu => by
    simp at hu
    simp
    omega]
  simp [List.foldl]
  omega

/-- The descending scan over same-year four-digit numbers returns the
number with the greatest sequence. -/
theorem foldl_maxStep_fmt (year : Nat) :
    ∀ (l : List CU) (a : Nat), a ≤ 9999 →
      (∀ x ∈ l, ∃ s, s ≤ 9999 ∧ x = fmtInvoiceNumber year s) →
      ∃ b, b ≤ 9999 ∧ a ≤ b ∧
        List.foldl maxStep (some (fmtInvoiceNumber year a)) l =
          some (fmtInvoiceNumber year b) ∧
        (∀ s, s ≤ 9999 → fmtInvoiceNumber year s ∈ l → s ≤ b) ∧
        (b = a ∨ fmtInvoiceNumber year b ∈ l) := by
  intro l
  induction l with
  | nil =>
    intro a ha _
    exact ⟨a, ha, Nat.le_refl a, rfl, by simp, Or.inl rfl⟩
  | cons x xs ih =>
    intro a ha hwf
    obtain ⟨s, hs, rfl⟩ := hwf x (List.mem_cons_self x xs)
    have hcu := cuLt_fmt_iff year a s ha hs
    have hstep :
        maxStep (some (fmtInvoiceNumber year a)) (fmtInvoiceNumber year s) =
          some (fmtInvoiceNumber year (max a s)) := by
      rcases Nat.lt_or_ge a s with h | h
      · have ht : cuLt (fmtInvoiceNumber year a) (fmtInvoiceNumber year s) = true :=
          hcu.mpr h
        simp [maxStep, ht, Nat.max_eq_right (Nat.le_of_lt h)]
      · have hf : cuLt (fmtInvoiceNumber year a) (fmtInvoiceNumber year s) = false := by
          rcases Bool.eq_false_or_eq_true
              (cuLt (fmtInvoiceNumber year a) (fmtInvoiceNumber year s)) with h1 | h1
          · exact absurd (hcu.mp h1) (by omega)
          · exact h1
        simp [maxStep, hf, Nat.max_eq_left h]
    rw [List.foldl_cons, hstep]
    obtain ⟨b, hb9, hab, hfold, hmax, hmem⟩ :=
      ih (max a s) (by omega) fun y hy => hwf y (List.mem_cons_of_mem _ hy)
    refine ⟨b, hb9, Nat.le_trans (Nat.le_max_left a s) hab, hfold, ?_, ?_⟩
    · intro s' hs' hmem'
      rcases List.mem_cons.mp hmem' with heq | hmem''
      · have := fmt_inj year s' s hs' hs heq
        omega
      · exact hmax s' hs' hmem''
    · rcases hmem with rfl | hmem'
      · rcases Nat.le_total s a with h1 | h1
        · left
          exact Nat.max_eq_left h1
        · right
          rw [Nat.max_eq_right h1]
          exact List.mem_cons_self _ _
      · right
        exact List.mem_cons_of_mem _ hmem'

/-- CLAIM C3 (confirmed): under serial execution the allocated number for a
year is the year's highest issued sequence plus one, rendered as
`YYYY-NNNN` with a 4-digit zero-padded sequence; with no invoice for the
year the first number has sequence 1 (`0001`). -/
theorem generateInvoiceNumber_serial_correct (year : Nat) (numbers : List CU) :
    ((∀ num ∈ numbers, cuStartsWith (natDigits year ++ [45]) num = false) →
      generateInvoiceNumber year numbers = fmtInvoiceNumber year 1) ∧
    (∀ m, 1 ≤ m → m ≤ 9998 →
      (∀ num ∈ numbers, cuStartsWith (natDigits year ++ [45]) num = true →
        ∃ s, 1 ≤ s ∧ s ≤ m ∧ num = fmtInvoiceNumber year s) →
      fmtInvoiceNumber year m ∈ numbers →
      generateInvoiceNumber year numbers = fmtInvoiceNumber year (m + 1)) := by
  constructor
  · intro hnone
    have hfil : numbers.filter (cuStartsWith (natDigits year ++ [45])) = [] :=
      List.filter_eq_nil_iff.mpr fun a ha => by simp [hnone a ha]
    simp only [generateInvoiceNumber]
    rw [hfil]
    rfl
  · intro m hm1 hm2 hwf hmem
    have hmemf : fmtInvoiceNumber year m ∈
        numbers.filter (cuStartsWith (natDigits year ++ [45])) :=
      List.mem_filter.mpr
        ⟨hmem, cuStartsWith_append (natDigits year ++ [45]) (padStart4 (natDigits m))⟩
    cases hc : numbers.filter (cuStartsWith (natDigits year ++ [45])) with
    | nil =>
      rw [hc] at hmemf
      simp at hmemf
    | cons hd tl =>
      have hall : ∀ x ∈ hd :: tl, ∃ s, s ≤ 9999 ∧ x = fmtInvoiceNumber year s := by
        intro x hx
        rw [← hc] at hx
        obtain ⟨hxn, hxs⟩ := List.mem_filter.mp hx
        obtain ⟨s, _, h2, h3⟩ := hwf x hxn hxs
        exact ⟨s, by omega, h3⟩
      obtain ⟨s0, hs0, rfl⟩ := hall hd (List.mem_cons_self hd tl)
      obtain ⟨b, hb9, hs0b, hfold, hmax, hmemb⟩ :=
        foldl_maxStep_fmt year tl s0 hs0 fun y hy => hall y (List.mem_cons_of_mem _ hy)
      have hmx : maxByCu (fmtInvoiceNumber year s0 :: tl) =
          some (fmtInvoiceNumber year b) := hfold
      have hble : b ≤ m := by
        have hbin : fmtInvoiceNumber year b ∈ fmtInvoiceNumber year s0 :: tl := by
          rcases hmemb with rfl | h
          · exact List.mem_cons_self _ _
          · exact List.mem_cons_of_mem _ h
        rw [← hc] at hbin
        obtain ⟨hbn, hbs⟩ := List.mem_filter.mp hbin
        obtain ⟨s, _, hsm, heq⟩ := hwf _ hbn hbs
        have := fmt_inj year b s hb9 (by omega) heq
        omega
      have hmle : m ≤ b := by
        rw [hc] at hmemf
        rcases List.mem_cons.mp hmemf with heq | htl
        · have := fmt_inj year m s0 (by omega) hs0 heq
          omega
        · exact hmax m (by omega) htl
      have hbm : b = m := by omega
      subst hbm
      have hsec : (secondDashField (fmtInvoiceNumber year b)).bind parseIntCU =
          some b := by
        rw [secondDashField_fmt year b]
        simp only [Option.some_bind]
        exact parseIntCU_padStart4 b (by omega)
      simp only [generateInvoiceNumber]
      rw [hc, hmx]
      show (match (secondDashField (fmtInvoiceNumber year b)).bind parseIntCU with
        | some n => natDigits year ++ [45] ++ padStart4 (natDigits (n + 1))
        | none => natDigits year ++ [45] ++ [48, 78, 97, 78]) =
          fmtInvoiceNumber year (b + 1)
      rw [hsec]
      rfl

/-- Witness for C3 at the spec's own example: after `2025-0003`, the next
2025 number is `2025-0004` and the first 2026 number is `2026-0001`. -/
theorem generateInvoiceNumber_serial_correct_witness :
    generateInvoiceNumber 2025 [fmtInvoiceNumber 2025 3] =
      fmtInvoiceNumber 2025 4 ∧
    generateInvoiceNumber 2026 [fmtInvoiceNumber 2025 3] =
      fmtInvoiceNumber 2026 1 := by
  constructor
  · exact (generateInvoiceNumber_serial_correct 2025 [fmtInvoiceNumber 2025 3]).2 3
      (by decide) (by decide)
      (fun num hmem _ => by
        simp only [List.mem_singleton] at hmem
        exact ⟨3, by omega, by omega, hmem⟩)
      (by simp)
  · exact (generateInvoiceNumber_serial_correct 2026 [fmtInvoiceNumber 2025 3]).1
      (by decide)

/-! ## Definitions taken from the specification's words

These are NOT part of the source embedding: they state what the spec
mandates, to be compared against the embedded behaviour. -/

/-- The spec's §4.4 transition table
`DRAFT:[SENT], SENT:[PAID, OVERDUE], OVERDUE:[PAID], PAID:[]`. -/
def specAllowedTransition : InvoiceStatus → InvoiceStatus → Bool
  | .DRAFT, .SENT => true
  | .SENT, .PAID => true
  | .SENT, .OVERDUE => true
  | .OVERDUE, .PAID => true
  | _, _ => false

/-- The spec's `duration == round(end - start)` in whole seconds:
`Math.round` of the millisecond difference divided by 1000.  JS
`Math.round x` is `⌊x + 0.5⌋` (half up), embedded with `Rat.floor`. -/
def specRoundSeconds (ms : Int) : Int := Rat.floor ((ms : ℚ) / 1000 + 1 / 2)

/-- Rounding to 2 decimal places, half up, per the spec's §4.3 policy. -/
def specRound2 (q : ℚ) : ℚ := (Rat.floor (q * 100 + 1 / 2) : ℚ) / 100

/-- Whether `q` is representable with at most 2 decimal places — a necessary
condition for being the result of any 2-decimal rounding. -/
def TwoDecimal (q : ℚ) : Prop := ∃ n : ℤ, q * 100 = (n : ℚ)

/-! ## Interleaving model for concurrent invoice generation

`generateInvoiceNumber` runs a read (`findFirst` over the committed
invoices) and the enclosing `generateFromProject` later commits
`invoice.create` with the computed number.  Nothing locks the number
between the two steps (`generateInvoiceNumber` even queries through the
global client, outside the transaction), so two requests may interleave.
Each process is either ready to read, holding an allocated number, or
committed. -/

inductive AllocPhase
  | ready
  | allocated (n : CU)
  | committed (n : CU)
deriving DecidableEq

/-- Two concurrent `generate` requests racing on the shared invoice list. -/
structure TwoGenState where
  numbers : List CU
  p1 : AllocPhase
  p2 : AllocPhase
deriving DecidableEq

/-- One atomic step of a single process: the `findFirst`-and-compute read,
or the `invoice.create` write; a committed process does nothing. -/
def phaseStep (year : Nat) (numbers : List CU) :
    AllocPhase → AllocPhase × List CU
  | .ready => (.allocated (generateInvoiceNumber year numbers), numbers)
  | .allocated n => (.committed n, numbers ++ [n])
  | .committed n => (.committed n, numbers)

/-- Run one step of process 1 (`true`) or process 2 (`false`). -/
def twoGenStep (year : Nat) (s : TwoGenState) (which : Bool) : TwoGenState :=
  if which then
    let r := phaseStep year s.numbers s.p1
    { s with p1 := r.1, numbers := r.2 }
  else
    let r := phaseStep year s.numbers s.p2
    { s with p2 := r.1, numbers := r.2 }

/-- Run a schedule (a list of process choices). -/
def runSchedule (year : Nat) (s : TwoGenState) : List Bool → TwoGenState
  | [] => s
  | w :: ws => runSchedule year (twoGenStep year s w) ws

/-- The function `Rat.floor` is the `⌊·⌋` of `ℚ`. -/
theorem ratFloor_def (q : ℚ) : Rat.floor q = ⌊q⌋ := rfl

/-- JS `Math.floor((endMs - startMs) / 1000)`, embedded as `Int.fdiv`, is the
floor of the exact rational quotient. -/
theorem fdiv_thousand_floor (n : Int) :
    Int.fdiv n 1000 = ⌊((n : ℚ)) / (1000 : ℚ)⌋ := by
  rw [Int.fdiv_eq_ediv _ (by omega), show ((1000 : ℚ)) = ((1000 : ℕ) : ℚ) by norm_num,
    Rat.floor_intCast_div_natCast]
  rfl

/-! ## Concrete fixtures -/

def ownerU : User := ⟨"u1", some 50⟩

def clientProject : Project := ⟨"p1", "c1", "u1", none⟩

def designTask : TaskRow := ⟨"t1", "p1", "Design", none⟩

/-- An approved billable ledger entry whose stored duration is `120`
(the invoice generator reads the `duration` column as minutes). -/
def entry120 : TimeEntry := ⟨"e1", "u1", "t1", "", 10, some 7210, 120, true, true, none⟩

def entry180 : TimeEntry := ⟨"e2", "u1", "t1", "", 20, some 10820, 180, true, true, none⟩

def windowData : GenerateInvoiceData := ⟨"p1", 0, 1000, some 99, none⟩

def exampleStore : Store :=
  ⟨[ownerU], [clientProject], [designTask], [entry120, entry180], [], [], []⟩

def exampleItem : InvoiceItem := ⟨"inv1", "Rad na zadatku: Design", 5, 50, 250⟩

def exampleInvoice : Invoice :=
  ⟨"inv1", "c1", "u1", some "p1", fmtInvoiceNumber 2025 1, 0, 99, .DRAFT,
    250, 125 / 2, 625 / 2, none, none⟩

def taxiExpense : Expense := ⟨"x1", "p1", "u1", 5, 1 / 10, "Travel", "Taxi", true, none⟩

def expenseStore : Store := ⟨[ownerU], [clientProject], [], [], [taxiExpense], [], []⟩

def expenseItem : InvoiceItem := ⟨"inv1", "Travel: Taxi", 1, 1 / 10, 1 / 10⟩

def expenseInvoice : Invoice :=
  ⟨"inv1", "c1", "u1", some "p1", fmtInvoiceNumber 2025 1, 0, 99, .DRAFT,
    1 / 10, 1 / 40, 1 / 8, none, none⟩

/-- A project with work but nothing billable/approved in any window. -/
def emptyWorkStore : Store := ⟨[ownerU], [clientProject], [designTask], [], [], [], []⟩

def noRateUser : User := ⟨"u2", none⟩

def noRateProject : Project := ⟨"p2", "c1", "u2", none⟩

def noRateStore : Store := ⟨[noRateUser], [noRateProject], [], [], [], [], []⟩

/-- A running timer entry of worker `w1` started at epoch 0. -/
def wRun : TimeEntry := ⟨"r1", "w1", "t1", "", 0, none, 0, true, false, none⟩

def timerStore : Store := ⟨[], [], [], [wRun], [], [], []⟩

def noTimerStore : Store := ⟨[], [], [], [], [], [], []⟩

def paidInvoice : Invoice :=
  ⟨"i1", "c1", "u1", none, fmtInvoiceNumber 2025 1, 0, 9, .PAID, 100, 25, 125, none, none⟩

def statusStore : Store := ⟨[], [], [], [], [], [paidInvoice], []⟩

/-! ## Claim C1 — invoice status transitions -/

/-- CLAIM C1 (counterexample): `updateInvoiceStatus` accepts PAID → SENT,
a pair the spec's transition table forbids: the call returns the invoice
with status SENT instead of failing with `InvalidTransitionError`. -/
theorem updateInvoiceStatus_paid_to_sent_succeeds :
    specAllowedTransition .PAID .SENT = false ∧
    updateInvoiceStatus "u1" "i1" .SENT statusStore =
      .ok ({ statusStore with invoices := [{ paidInvoice with status := .SENT }] },
        { paidInvoice with status := .SENT }) := by
  constructor
  · rfl
  · simp [updateInvoiceStatus, getInvoiceById, statusStore, paidInvoice, List.find?]

/-- CLAIM C1 (amended): `updateInvoiceStatus` consults no transition table:
whenever the invoice is visible to the caller it writes the requested
status, for every source/target pair — PAID → SENT included; it fails only
with a 404 `NotFoundError` when the invoice is missing or inaccessible. -/
theorem updateInvoiceStatus_no_transition_check
    (uid iid : String) (T : InvoiceStatus) (st : Store) :
    (∀ inv, getInvoiceById uid iid st = some inv →
      updateInvoiceStatus uid iid T st =
        .ok ({ st with invoices := st.invoices.map fun i =>
            if i.id == iid then { i with status := T } else i },
          { inv with status := T })) ∧
    (getInvoiceById uid iid st = none →
      updateInvoiceStatus uid iid T st =
        .error ⟨"Invoice not found or access denied", 404⟩) := by
  constructor
  · intro inv h
    simp only [updateInvoiceStatus, h]
  · intro h
    simp only [updateInvoiceStatus, h]

/-- Witness for the amended C1 at a concrete PAID invoice and the
(also forbidden) target DRAFT: the write succeeds. -/
theorem updateInvoiceStatus_no_transition_check_witness :
    updateInvoiceStatus "u1" "i1" .DRAFT statusStore =
      .ok ({ statusStore with invoices := [{ paidInvoice with status := .DRAFT }] },
        { paidInvoice with status := .DRAFT }) := by
  have h := (updateInvoiceStatus_no_transition_check "u1" "i1" .DRAFT statusStore).1
    paidInvoice (by simp [getInvoiceById, statusStore, paidInvoice, List.find?])
  simpa [statusStore] using h

/-! ## Claim C2 — concurrent number allocation -/

/-- CLAIM C2 (code bug): with `2025-0003` committed, the interleaving
read₁ read₂ write₁ write₂ hands BOTH generate calls the number `2025-0004`
— already equal at the allocation step — and commits it twice, while the
serial schedule read₁ write₁ read₂ write₂ yields the distinct `2025-0004`
and `2025-0005`.  The find-max-then-increment allocator is not race-safe. -/
theorem concurrent_generation_duplicate_number :
    (runSchedule 2025 ⟨[fmtInvoiceNumber 2025 3], .ready, .ready⟩
        [true, false]).p1 = .allocated (fmtInvoiceNumber 2025 4) ∧
    (runSchedule 2025 ⟨[fmtInvoiceNumber 2025 3], .ready, .ready⟩
        [true, false]).p2 = .allocated (fmtInvoiceNumber 2025 4) ∧
    (runSchedule 2025 ⟨[fmtInvoiceNumber 2025 3], .ready, .ready⟩
        [true, false, true, false]).numbers =
      [fmtInvoiceNumber 2025 3, fmtInvoiceNumber 2025 4, fmtInvoiceNumber 2025 4] ∧
    (runSchedule 2025 ⟨[fmtInvoiceNumber 2025 3], .ready, .ready⟩
        [true, true, false, false]).numbers =
      [fmtInvoiceNumber 2025 3, fmtInvoiceNumber 2025 4, fmtInvoiceNumber 2025 5] := by
  refine ⟨by decide, by decide, by decide, by decide⟩

/-! ## Claim C4 — stopping a timer -/

/-- CLAIM C4 (counterexample): stopping 1500 ms after start persists
`duration = 1` (`Math.floor`), not the claimed `round(1.5 s) = 2`; and
stopping with the clock moved 500 ms backwards SUCCEEDS with the entry
stopped at `duration = -1` instead of failing with `InvalidStateError`. -/
theorem stopTimer_floor_no_guard_cex :
    stopTimer 1500 "w1" timerStore =
      .ok ({ timerStore with
          timeEntries := [{ wRun with endTime := some 1500, duration := 1 }] },
        { wRun with endTime := some 1500, duration := 1 }) ∧
    specRoundSeconds 1500 = 2 ∧
    stopTimer (-500) "w1" timerStore =
      .ok ({ timerStore with
          timeEntries := [{ wRun with endTime := some (-500), duration := -1 }] },
        { wRun with endTime := some (-500), duration := -1 }) := by
  refine ⟨by decide, ?_, by decide⟩
  rw [specRoundSeconds, ratFloor_def, Int.floor_eq_iff]
  norm_num

/-- CLAIM C4 (amended): whenever a running entry exists, `stopTimer`
always succeeds — there is no `InvalidStateError` guard — setting
`endTime = now` and `duration = ⌊(now − start) / 1000⌋` seconds (floor,
not round), which is ≤ 0 whenever `now ≤ start`. -/
theorem stopTimer_sets_floor_duration
    (now : Int) (uid : String) (st : Store) (e : TimeEntry)
    (h : findRunningTimer uid st = some e) :
    stopTimer now uid st =
      .ok ({ st with timeEntries := st.timeEntries.map fun x =>
          if x.id == e.id then
            { e with endTime := some now,
                     duration := Int.fdiv (now - e.startTime) 1000 }
          else x },
        { e with endTime := some now,
                 duration := Int.fdiv (now - e.startTime) 1000 }) ∧
    Int.fdiv (now - e.startTime) 1000 =
      ⌊((now - e.startTime : ℤ) : ℚ) / (1000 : ℚ)⌋ ∧
    (now ≤ e.startTime → Int.fdiv (now - e.startTime) 1000 ≤ 0) := by
  refine ⟨by simp only [stopTimer, h], fdiv_thousand_floor _, fun hle => ?_⟩
  have h0 : now - e.startTime ≤ 0 := by omega
  rw [Int.fdiv_eq_ediv _ (by omega)]
  omega

/-- Witness for the amended C4: stopping `w1`'s timer at `now = 2500`
persists `duration = 2`. -/
theorem stopTimer_sets_floor_duration_witness :
    stopTimer 2500 "w1" timerStore =
      .ok ({ timerStore with
          timeEntries := [{ wRun with endTime := some 2500, duration := 2 }] },
        { wRun with endTime := some 2500, duration := 2 }) := by
  have h := (stopTimer_sets_floor_duration 2500 "w1" timerStore wRun (by decide)).1
  simpa [timerStore, wRun] using h

/-! ## Claim C8 — timer error paths -/

/-- CLAIM C8 (confirmed): `startTimer` with a running entry fails with the
409 `ConflictError`; `stopTimer` with no running entry fails with the 404
`NotFoundError`; in both cases the store is unchanged. -/
theorem timer_error_paths
    (now : Int) (newId uid taskId : String) (descr : Option String) (st : Store) :
    ((findRunningTimer uid st).isSome = true →
      startTimer now newId uid taskId descr st =
        .error ⟨"You already have an active timer running", 409⟩ ∧
      applyStartTimer now newId uid taskId descr st = st) ∧
    (findRunningTimer uid st = none →
      stopTimer now uid st = .error ⟨"No active timer found", 404⟩ ∧
      applyStopTimer now uid st = st) := by
  constructor
  · intro h
    obtain ⟨e, he⟩ := Option.isSome_iff_exists.mp h
    constructor
    · simp only [startTimer, he]
    · simp only [applyStartTimer, startTimer, he]
  · intro h
    constructor
    · simp only [stopTimer, h]
    · simp only [applyStopTimer, stopTimer, h]

/-- Witness for C8: concrete conflict on a running timer and concrete
not-found on an empty ledger. -/
theorem timer_error_paths_witness :
    startTimer 5 "n1" "w1" "t9" none timerStore =
      .error ⟨"You already have an active timer running", 409⟩ ∧
    stopTimer 5 "w1" noTimerStore = .error ⟨"No active timer found", 404⟩ :=
  ⟨((timer_error_paths 5 "n1" "w1" "t9" none timerStore).1 (by decide)).1,
   ((timer_error_paths 5 "n1" "w1" "t9" none noTimerStore).2 (by decide)).1⟩

/-! ## Claim C7 — nothing to invoice -/

/-- CLAIM C7 (confirmed): with the project resolved but zero eligible time
entries and zero billable expenses in the window, `generateFromProject`
throws the 400 `InvalidStateError` before any `invoice.create`, and the
transaction leaves the store unchanged. -/
theorem generate_nothing_to_invoice
    (now : Int) (year : Nat) (nid uid : String) (d : GenerateInvoiceData)
    (st : Store)
    (hp : (findProject uid d.projectId st).isSome = true)
    (hT : eligibleTimeEntries uid d st = [])
    (hX : eligibleExpenses uid d st = []) :
    generateFromProject now year nid uid d st =
      .error ⟨"No billable time entries or expenses found for the specified period", 400⟩ ∧
    applyGenerate now year nid uid d st = st := by
  obtain ⟨p, hp'⟩ := Option.isSome_iff_exists.mp hp
  have h1 : generateFromProject now year nid uid d st =
      .error ⟨"No billable time entries or expenses found for the specified period", 400⟩ := by
    simp only [generateFromProject, hp', hT, hX]
    rfl
  exact ⟨h1, by simp only [applyGenerate, h1]⟩

/-- Witness for C7: a project with a task but no eligible work at all. -/
theorem generate_nothing_to_invoice_witness :
    generateFromProject 0 2025 "inv1" "u1" windowData emptyWorkStore =
      .error ⟨"No billable time entries or expenses found for the specified period", 400⟩ ∧
    applyGenerate 0 2025 "inv1" "u1" windowData emptyWorkStore = emptyWorkStore :=
  generate_nothing_to_invoice 0 2025 "inv1" "u1" windowData emptyWorkStore
    (by simp [findProject, emptyWorkStore, clientProject, windowData, List.find?])
    (by simp [eligibleTimeEntries, emptyWorkStore])
    (by simp [eligibleExpenses, emptyWorkStore])

/-! ## Claim C9 — only the caller's work is invoiced -/

/-- CLAIM C9 (confirmed): the `generateFromProject` selections filter on
`userId`: every selected time entry and expense belongs to the calling
owner, so another worker's rows are never invoiced. -/
theorem generate_selects_only_caller
    (uid : String) (d : GenerateInvoiceData) (st : Store) :
    (∀ e ∈ eligibleTimeEntries uid d st, e.userId = uid) ∧
    (∀ x ∈ eligibleExpenses uid d st, x.userId = uid) := by
  constructor
  · intro e he
    have h := (List.mem_filter.mp he).2
    simp only [Bool.and_eq_true, beq_iff_eq] at h
    exact h.1.1.1.1.1.1
  · intro x hx
    have h := (List.mem_filter.mp hx).2
    simp only [Bool.and_eq_true, beq_iff_eq] at h
    exact h.1.1.1.1.2

/-- Witness for C9 on the worked example: both eligible rows belong to the
caller `u1`, and a foreign-user copy of the entry is not selected. -/
theorem generate_selects_only_caller_witness :
    entry120.userId = "u1" ∧ taxiExpense.userId = "u1" :=
  ⟨(generate_selects_only_caller "u1" windowData exampleStore).1 entry120 (by decide),
   (generate_selects_only_caller "u1" windowData expenseStore).2 taxiExpense
     (by simp [eligibleExpenses, expenseStore, taxiExpense, windowData])⟩

/-! ## Claim C10 — default hourly rate -/

/-- CLAIM C10 (confirmed): with the owner's `hourlyRate` null, the
`|| new Prisma.Decimal(50)` fallback makes the rate 50, so every time-based
line item has `rate = 50` and `amount = quantity × 50`. -/
theorem generate_default_rate_fifty
    (st : Store) (p : Project) (u : User) (nid : String)
    (groups : List (String × Int))
    (hu : st.users.find? (fun v => v.id == p.ownerId) = some u)
    (hr : u.hourlyRate = none) :
    ownerHourlyRate st p = 50 ∧
    ∀ it ∈ timeItems nid (ownerHourlyRate st p) groups,
      it.rate = 50 ∧ it.amount = it.quantity * 50 := by
  have h50 : ownerHourlyRate st p = 50 := by
    simp only [ownerHourlyRate, hu, hr, Option.getD_none]
  refine ⟨h50, ?_⟩
  intro it hit
  rw [h50] at hit
  obtain ⟨g, _, rfl⟩ := List.mem_map.mp hit
  exact ⟨rfl, rfl⟩

/-- Witness for C10: a rate-less owner prices a 300-minute group at 50/h:
one item of 5 hours, amount 250. -/
theorem generate_default_rate_fifty_witness :
    ownerHourlyRate noRateStore noRateProject = 50 ∧
    ({ invoiceId := "inv1", description := "Rad na zadatku: Design",
       quantity := 5, rate := 50, amount := 250 } : InvoiceItem).rate = 50 := by
  refine ⟨(generate_default_rate_fifty noRateStore noRateProject noRateUser "inv1" []
      (by simp [noRateStore, noRateProject, noRateUser, List.find?]) rfl).1, ?_⟩
  exact ((generate_default_rate_fifty noRateStore noRateProject noRateUser "inv1"
      [("Design", 300)]
      (by simp [noRateStore, noRateProject, noRateUser, List.find?]) rfl).2
    _ (by
      have h50 : ownerHourlyRate noRateStore noRateProject = 50 := by
        simp [ownerHourlyRate, noRateStore, noRateProject, noRateUser, List.find?]
      rw [h50]
      simp [timeItems]
      norm_num)).1

/-! ## Claim C5 — totals and rounding -/

/-- CLAIM C5 (counterexample): invoicing a single billable expense of 0.10
yields `tax = 0.025` — exactly `subtotal × 0.25`, but NOT a 2-decimal
value: no step of the claimed round-then-sum policy is applied anywhere in
`generateFromProject`. -/
theorem generate_totals_unrounded_cex :
    generateFromProject 0 2025 "inv1" "u1" windowData expenseStore =
      .ok ({ expenseStore with
          invoices := [expenseInvoice], invoiceItems := [expenseItem] },
        expenseInvoice, [expenseItem]) ∧
    expenseInvoice.tax = 1 / 40 ∧
    ¬ TwoDecimal expenseInvoice.tax ∧
    expenseInvoice.tax ≠ specRound2 (expenseInvoice.subtotal * (1 / 4 : ℚ)) := by
  refine ⟨?_, rfl, ?_, ?_⟩
  · simp [generateFromProject, findProject, eligibleTimeEntries, eligibleExpenses,
      taskOfEntry, entryTaskTitle, ownerHourlyRate, timeEntryGroups, addToGroup,
      timeItems, expenseItems, generateInvoiceNumber, maxByCu, maxStep,
      expenseStore, windowData, ownerU, clientProject, taxiExpense,
      expenseItem, expenseInvoice, fmtInvoiceNumber, List.filter, List.find?,
      List.foldl, List.map, Store.mk.injEq, Invoice.mk.injEq, InvoiceItem.mk.injEq]
    norm_num
  · rintro ⟨n, hn⟩
    have h5 : (5 : ℚ) = 2 * n := by
      show (5 : ℚ) = 2 * n
      have : expenseInvoice.tax = 1 / 40 := rfl
      rw [this] at hn
      field_simp at hn
      linarith
    have h5' : (5 : ℤ) = 2 * n := by exact_mod_cast h5
    omega
  · show (1 / 40 : ℚ) ≠ specRound2 ((1 / 10 : ℚ) * (1 / 4))
    rw [specRound2, ratFloor_def]
    have h : (1 / 10 : ℚ) * (1 / 4) * 100 + 1 / 2 = 3 := by norm_num
    rw [h, show ((3 : ℚ)) = ((3 : ℤ) : ℚ) by norm_num, Int.floor_intCast]
    norm_num

/-- CLAIM C5 (amended): whenever `generateFromProject` succeeds, the
persisted totals satisfy — exactly, with no rounding anywhere —
`subtotal = Σ item.amount`, `tax = subtotal × 0.25` and
`total = subtotal + tax`. -/
theorem generateFromProject_totals_exact
    (now : Int) (year : Nat) (nid uid : String) (d : GenerateInvoiceData)
    (st st' : Store) (inv : Invoice) (items : List InvoiceItem)
    (h : generateFromProject now year nid uid d st = .ok (st', inv, items)) :
    inv.subtotal = items.foldl (fun s i => s + i.amount) 0 ∧
    inv.tax = inv.subtotal * (1 / 4 : ℚ) ∧
    inv.total = inv.subtotal + inv.tax := by
  simp only [generateFromProject] at h
  split at h
  · exact Except.noConfusion h
  · split at h
    · exact Except.noConfusion h
    · simp only [Except.ok.injEq, Prod.mk.injEq] at h
      obtain ⟨-, h2, h3⟩ := h
      subst h2
      subst h3
      exact ⟨rfl, rfl, rfl⟩

/-- Witness for the amended C5 at the expense example:
`0.1 = 0.1`, `0.025 = 0.1 × 0.25`, `0.125 = 0.1 + 0.025`. -/
theorem generateFromProject_totals_exact_witness :
    expenseInvoice.subtotal =
      [expenseItem].foldl (fun s i => s + i.amount) 0 ∧
    expenseInvoice.tax = expenseInvoice.subtotal * (1 / 4 : ℚ) ∧
    expenseInvoice.total = expenseInvoice.subtotal + expenseInvoice.tax :=
  generateFromProject_totals_exact 0 2025 "inv1" "u1" windowData expenseStore
    ({ expenseStore with invoices := [expenseInvoice], invoiceItems := [expenseItem] })
    expenseInvoice [expenseItem]
    (by
      simp [generateFromProject, findProject, eligibleTimeEntries, eligibleExpenses,
        taskOfEntry, entryTaskTitle, ownerHourlyRate, timeEntryGroups, addToGroup,
        timeItems, expenseItems, generateInvoiceNumber, maxByCu, maxStep,
        expenseStore, windowData, ownerU, clientProject, taxiExpense,
        expenseItem, expenseInvoice, fmtInvoiceNumber, List.filter, List.find?,
        List.foldl, List.map, Store.mk.injEq, Invoice.mk.injEq, InvoiceItem.mk.injEq]
      norm_num)

/-! ## Claim C6 — the worked two-entry example -/

/-- CLAIM C6 (counterexample): on two approved billable entries of 120 and
180 minutes on one task at rate 50, the generator emits exactly one line
item with quantity 5 and amount 250 — but its description is the Croatian
`"Rad na zadatku: Design"`, not the claimed `"work on task: Design"`. -/
theorem generate_example_description_cex :
    generateFromProject 0 2025 "inv1" "u1" windowData exampleStore =
      .ok ({ exampleStore with
          invoices := [exampleInvoice], invoiceItems := [exampleItem] },
        exampleInvoice, [exampleItem]) ∧
    exampleItem.description ≠ "work on task: Design" := by
  refine ⟨?_, by simp [exampleItem]⟩
  simp [generateFromProject, findProject, eligibleTimeEntries, eligibleExpenses,
    taskOfEntry, entryTaskTitle, ownerHourlyRate, timeEntryGroups, addToGroup,
    timeItems, expenseItems, generateInvoiceNumber, maxByCu, maxStep,
    exampleStore, windowData, ownerU, clientProject, designTask, entry120, entry180,
    exampleItem, exampleInvoice, fmtInvoiceNumber, List.filter, List.find?,
    List.foldl, List.map, Store.mk.injEq, Invoice.mk.injEq, InvoiceItem.mk.injEq]
  norm_num

/-- CLAIM C6 (amended): same run — exactly one line item, quantity
`(120 + 180) / 60 = 5` hours (raw durations summed before dividing), rate
50, amount 250, description `"Rad na zadatku: Design"`, and the invoice
carries subtotal 250, tax 62.5, total 312.5. -/
theorem generate_example_item_amended :
    generateFromProject 0 2025 "inv1" "u1" windowData exampleStore =
      .ok ({ exampleStore with
          invoices := [exampleInvoice], invoiceItems := [exampleItem] },
        exampleInvoice, [exampleItem]) ∧
    exampleItem =
      ⟨"inv1", "Rad na zadatku: Design", 5, 50, 250⟩ ∧
    exampleItem.quantity = ((120 + 180 : ℚ)) / 60 ∧
    exampleInvoice.subtotal = 250 ∧
    exampleInvoice.tax = 125 / 2 ∧
    exampleInvoice.total = 625 / 2 := by
  refine ⟨?_, rfl, by norm_num [exampleItem], rfl, rfl, rfl⟩
  simp [generateFromProject, findProject, eligibleTimeEntries, eligibleExpenses,
    taskOfEntry, entryTaskTitle, ownerHourlyRate, timeEntryGroups, addToGroup,
    timeItems, expenseItems, generateInvoiceNumber, maxByCu, maxStep,
    exampleStore, windowData, ownerU, clientProject, designTask, entry120, entry180,
    exampleItem, exampleInvoice, fmtInvoiceNumber, List.filter, List.find?,
    List.foldl, List.map, Store.mk.injEq, Invoice.mk.injEq, InvoiceItem.mk.injEq]
  norm_num
